import Mathlib

/-!
Verification of the AVIVO retrieval subsystem
=============================================

Shallow embedding of the retrieval subsystem of the AVIVO repository:
the Redis response cache (`src/services/cache_service.py`), the FAISS
vector store (`src/services/vector_store.py`) and the RAG orchestrator
(`src/services/rag_service.py`), together with proofs of the testable
properties stated in the design specification.

External collaborators (the Redis client, the FAISS ANN backend, the
embedding endpoint, the LLM endpoint, SHA-256, JSON serialization and
float formatting) are modelled as explicit oracle parameters: each call
site receives the outcome of the corresponding external call.  Python
exceptions raised by an external call are modelled with `Except`;
mutation of the external Redis store and of the on-disk index is
modelled by explicit state passing.  Python floats are modelled as real
numbers.
-/

set_option maxHeartbeats 1000000

namespace AVIVO

/-! ## Python string primitives

Python strings are sequences of code points; the string operations the
source uses are modelled structurally over `String.data` (Python
`str.lower`, `str.strip`, slicing `s[:n]` and `str.startswith`). -/

/-- Python `s.lower()` (code-point-wise lowering). -/
def lowerStr (s : String) : String := ⟨s.data.map Char.toLower⟩

/-- Python `s.strip()`: remove leading and trailing whitespace. -/
def stripStr (s : String) : String :=
  ⟨((s.data.dropWhile Char.isWhitespace).reverse.dropWhile Char.isWhitespace).reverse⟩

/-- Python `s[:n]`: the first `n` code points of `s`. -/
def sliceStr (s : String) (n : Nat) : String := ⟨s.data.take n⟩

/-- Python `s.startswith(p)`. -/
def startsWithStr (s p : String) : Bool := p.data.isPrefixOf s.data

/-! ## Data model

`Document` mirrors LangChain's `Document` (`page_content` plus a string
metadata map, modelled as an association list). -/

structure Document where
  page_content : String
  metadata : List (String × String)
deriving DecidableEq

/-- The in-memory LangChain FAISS store, reduced to the part the claims
observe: the docstore contents (`vectorstore.docstore._dict`, whose
length is what the source code inspects). -/
structure FAISSStore where
  docstore : List Document
deriving DecidableEq

/-- Model of `similarity_score = math.exp(-distance)` (vector_store.py line
143), with Python floats modelled as real numbers. -/
noncomputable def similarityScore (distance : ℝ) : ℝ := Real.exp (-distance)

/-- One element of the result list of `VectorStore.similarity_search`
(and likewise one entry of the optional `sources` list of a query
answer, which carries the same four fields). -/
structure SearchResult where
  content : String
  metadata : List (String × String)
  similarity_score : ℝ
  distance : ℝ

/-- The result record built from one `(doc, distance)` pair returned by
the FAISS backend (vector_store.py lines 141–152). -/
noncomputable def mkSearchResult (p : Document × ℝ) : SearchResult :=
  ⟨p.1.page_content, p.1.metadata, similarityScore p.2, p.2⟩

/-- The sort order of `results.sort(key=similarity_score, reverse=True)`:
descending similarity score. -/
def simDescRel (a b : SearchResult) : Prop :=
  b.similarity_score ≤ a.similarity_score

/-- Ascending distance: the spec's "closest first" order. -/
def distAscRel (a b : SearchResult) : Prop := a.distance ≤ b.distance

noncomputable instance : DecidableRel simDescRel :=
  fun a b => Real.decidableLE b.similarity_score a.similarity_score

noncomputable instance : DecidableRel distAscRel :=
  fun a b => Real.decidableLE a.distance b.distance

instance : IsTotal SearchResult simDescRel := ⟨fun a b => le_total b.similarity_score a.similarity_score⟩

instance : IsTrans SearchResult simDescRel := ⟨fun _ _ _ hab hbc => le_trans hbc hab⟩

instance : IsTotal SearchResult distAscRel := ⟨fun a b => le_total a.distance b.distance⟩

instance : IsTrans SearchResult distAscRel := ⟨fun _ _ _ hab hbc => le_trans hab hbc⟩

/-! ## Response cache (`src/services/cache_service.py`)

The Redis backend is modelled as an association list of key/value
strings (`setex` prepends, `get` finds the most recent binding; TTL is
abstracted away, which is sound for the claims, none of which concern
expiry).  A Boolean failure flag per call models the backend raising at
that individual call; the `try/except` blocks of the source turn such a
failure into the documented miss/`False` results. -/

structure Redis where
  entries : List (String × String)
deriving DecidableEq

def Redis.get (r : Redis) (key : String) : Option String :=
  (r.entries.find? (fun e => e.1 = key)).map (·.2)

def Redis.setex (r : Redis) (key : String) (value : String) : Redis :=
  ⟨(key, value) :: r.entries⟩

/-- Model of `CacheService.generate_rag_cache_key`: lower-case, strip surrounding
whitespace, hash with SHA-256 (the hex digest is the oracle
`sha256hex`), prepend the `rag_query:` namespace marker. -/
def generate_rag_cache_key (sha256hex : String → String) (query : String) : String :=
  "rag_query:" ++ sha256hex (stripStr (lowerStr query))

/-- The string `RAGService.query` actually passes to the cache layer as
the "query": `f"rag:{question[:50]}"` (rag_service.py line 114). -/
def ragServiceCacheArg (question : String) : String :=
  "rag:" ++ sliceStr question 50

/-- The Redis key under which `RAGService.query` reads and writes the
cached answer for `question`: composition of `ragServiceCacheArg` with
`generate_rag_cache_key` (rag_service.py lines 114–115 and 171 feeding
cache_service.py lines 100 and 129). -/
def ragQueryEffectiveKey (sha256hex : String → String) (question : String) : String :=
  generate_rag_cache_key sha256hex (ragServiceCacheArg question)

/-- Model of `CacheService.get_cached_description`.  `getRaises` is true when the
backend `get` call raises at this call; the non-empty-string test
mirrors Python's `if cached:` truthiness check. -/
def get_cached_description (enabled getRaises : Bool) (r : Redis)
    (image_hash : String) : Option String :=
  if enabled = false then none
  else if getRaises then none
  else
    match r.get ("image:" ++ image_hash) with
    | none => none
    | some cached => if cached = "" then none else some cached

/-- The structured answer object returned by `RAGService.query`
(a Python dict; absent keys are modelled by `none`/`false`). -/
structure RagResponse where
  answer : String
  num_sources : Option Nat
  sources : Option (List SearchResult)
  error : Bool

/-- Model of `CacheService.get_cached_rag_response`.  `jsonLoads` is the
`json.loads` oracle (it may raise on malformed payloads, which the
surrounding `try/except` turns into a miss). -/
def get_cached_rag_response (enabled getRaises : Bool)
    (sha256hex : String → String)
    (jsonLoads : String → Except String RagResponse)
    (r : Redis) (query : String) : Option RagResponse :=
  if enabled = false then none
  else if getRaises then none
  else
    match r.get (generate_rag_cache_key sha256hex query) with
    | none => none
    | some cached =>
      if cached = "" then none
      else
        match jsonLoads cached with
        | .error _ => none
        | .ok result => some result

/-- Model of `CacheService.set_cached_rag_response`.  Returns the Boolean result
together with the Redis state after the call (`setRaises` models the
backend `setex` raising, in which case nothing is written). -/
def set_cached_rag_response (enabled setRaises : Bool)
    (sha256hex : String → String)
    (jsonDumps : RagResponse → String)
    (r : Redis) (query : String) (response : RagResponse) :
    Bool × Redis :=
  if enabled = false then (false, r)
  else if setRaises then (false, r)
  else (true, r.setex (generate_rag_cache_key sha256hex query) (jsonDumps response))

/-- Model of `CacheService.clear_cache`.  The three recognized scopes issue Redis
commands (`flushdb` or `keys`+`delete`), any of which may raise
(`backendRaises`); an unrecognized scope issues no backend command and
falls through to `return True`. -/
def clear_cache (enabled backendRaises : Bool) (r : Redis)
    (cache_type : String) : Bool × Redis :=
  if enabled = false then (false, r)
  else if cache_type = "all" then
    if backendRaises then (false, r) else (true, ⟨[]⟩)
  else if cache_type = "images" then
    if backendRaises then (false, r)
    else (true, ⟨r.entries.filter (fun e => !(startsWithStr e.1 "image:"))⟩)
  else if cache_type = "rag" then
    if backendRaises then (false, r)
    else (true, ⟨r.entries.filter (fun e => !(startsWithStr e.1 "rag_query:"))⟩)
  else (true, r)

/-! ## Vector store (`src/services/vector_store.py`)

The durable state (`vector_db/faiss_index`) is modelled alongside the
in-memory store; `_save_index` rewrites the whole persisted copy and is
modelled as atomic success or failure (`saveOk`), matching the claims'
view of durable storage.  Chunking is LangChain's text splitter, an
external collaborator: it appears as the oracle `split_documents`.
Embedding the chunks happens inside `FAISS.from_documents` /
`FAISS.add_documents`; its outcome is the oracle `embedBatch`, and a
failure there raises before anything is inserted in memory. -/

structure VectorStoreState where
  vectorstore : Option FAISSStore
  persisted : Option FAISSStore
deriving DecidableEq

/-- The docstore contents of the current in-memory store (empty when no
store has been created yet). -/
def currentDocs (st : VectorStoreState) : List Document :=
  match st.vectorstore with
  | none => []
  | some s => s.docstore

/-- Model of `VectorStore.add_documents`: chunk, reject empty chunk lists, embed
and insert, then persist via `_save_index` before returning `True`.  An
embedding failure raises before the in-memory insert; a save failure
raises after it; both are caught and reported as `False`. -/
def add_documents (st : VectorStoreState)
    (split_documents : List Document → List Document)
    (embedBatch : List Document → Except String Unit)
    (saveOk : Bool)
    (documents : List Document) : Bool × VectorStoreState :=
  let chunks := split_documents documents
  if chunks.length = 0 then (false, st)
  else
    match embedBatch chunks with
    | .error _ => (false, st)
    | .ok _ =>
      let newStore : FAISSStore := ⟨currentDocs st ++ chunks⟩
      if saveOk then (true, ⟨some newStore, some newStore⟩)
      else (false, ⟨some newStore, st.persisted⟩)

/-- Model of `VectorStore.clear`: drop the in-memory store, then remove the
persisted directory (`shutil.rmtree`, which may raise → `False`). -/
def VectorStore.clear (st : VectorStoreState) (rmtreeOk : Bool) :
    Bool × VectorStoreState :=
  if rmtreeOk then (true, ⟨none, none⟩)
  else (false, ⟨none, st.persisted⟩)

/-- Model of `VectorStore.similarity_search`.  The oracle `ann` is the FAISS
backend call `similarity_search_with_score(query, k)`: it embeds the
query text and runs the nearest-neighbour lookup, and it may raise
(connection refused, timeout); the surrounding `try/except` turns any
such failure into an empty result list.  Results with
`similarity_score >= score_threshold` are kept and finally sorted by
similarity score, highest first. -/
noncomputable def similarity_search (vs : Option FAISSStore)
    (ann : String → Nat → Except String (List (Document × ℝ)))
    (query : String) (k : Nat) (score_threshold : ℝ) : List SearchResult :=
  match vs with
  | none => []
  | some store =>
    if store.docstore.length = 0 then []
    else
      match ann query k with
      | .error _ => []
      | .ok docs_with_scores =>
        let results := docs_with_scores.filterMap (fun p =>
          if score_threshold ≤ similarityScore p.2 then some (mkSearchResult p)
          else none)
        results.insertionSort simDescRel

/-! ## RAG orchestrator (`src/services/rag_service.py`) -/

/-- Default value of `Config.RAG_TOP_K`. -/
def RAG_TOP_K : Nat := 5

/-- The fixed empty-index answer (rag_service.py line 134). -/
def noInfoAnswer : String :=
  "I don't have enough information to answer this question. Please upload relevant documents first."

/-- The leading text of the structured error answer built in the `except`
handler of `RAGService.query` (rag_service.py lines 178–181). -/
def errorAnswerHead : String :=
  "An error occurred while processing your question: "

/-- The LangChain prompt template of `RAGService` with `context` and
`question` substituted. -/
def prompt_template (context question : String) : String :=
  "Use the following context to answer the question. If you cannot answer based on the context, say \"I don't have enough information.\"\n\nContext:\n"
    ++ context ++ "\n\nQuestion: " ++ question ++ "\n\nAnswer:"

/-- The context block passed to the prompt: for each retrieved document
a header with its 1-based position and distance (`fmtFloat` renders the
Python float formatting `:.3f`) followed by the chunk text, joined with
blank lines. -/
noncomputable def buildContext (fmtFloat : ℝ → String)
    (results : List SearchResult) : String :=
  String.intercalate "\n\n"
    (results.enum.map (fun p =>
      "[Document " ++ toString (p.1 + 1) ++ " - Distance: "
        ++ fmtFloat p.2.distance ++ "]\n" ++ p.2.content))

/-- Model of `RAGService.query`.  Oracles: `sha256hex`, `jsonLoads`/`jsonDumps`
(JSON (de)serialization of answer objects), `fmtFloat` (float
formatting), `ann` (the FAISS backend, see `similarity_search`) and
`llm` (the LangChain/Ollama `llm.invoke` call, which may raise; it is
the only call inside the `try` block of `query` that can raise, since
the cache layer and `similarity_search` catch their own exceptions, so
the `except` handler of `query` fires exactly on an `llm` failure).
Returns the structured answer object together with the Redis state
after the call. -/
noncomputable def RAGService.query
    (sha256hex : String → String)
    (jsonLoads : String → Except String RagResponse)
    (jsonDumps : RagResponse → String)
    (fmtFloat : ℝ → String)
    (cache_enabled getRaises setRaises : Bool)
    (redis : Redis)
    (vs : Option FAISSStore)
    (ann : String → Nat → Except String (List (Document × ℝ)))
    (llm : String → Except String String)
    (question : String) (top_k : Option Nat) (include_sources : Bool) :
    RagResponse × Redis :=
  let k := top_k.getD RAG_TOP_K
  let cache_key := ragServiceCacheArg question
  match get_cached_rag_response cache_enabled getRaises sha256hex jsonLoads
      redis cache_key with
  | some cached_result => (cached_result, redis)
  | none =>
    let search_results := similarity_search vs ann question k 0
    if search_results.length = 0 then
      (⟨noInfoAnswer, none, none, false⟩, redis)
    else
      match llm (prompt_template (buildContext fmtFloat search_results) question) with
      | .error e => (⟨errorAnswerHead ++ e, none, none, true⟩, redis)
      | .ok answer =>
        let result : RagResponse :=
          ⟨answer, some search_results.length,
            if include_sources then
              some (search_results.map (fun doc =>
                ⟨sliceStr doc.content 200 ++ "...", doc.metadata,
                  doc.similarity_score, doc.distance⟩))
            else none,
            false⟩
        (result,
          (set_cached_rag_response cache_enabled setRaises sha256hex jsonDumps
            redis cache_key result).2)

/-! ## Chunker

The repository delegates chunking to LangChain's
`RecursiveCharacterTextSplitter` (vector_store.py lines 26–30,
document_processor.py lines 17–22): the code only configures chunk size
and overlap, the splitting algorithm itself is library code outside
this repository, so the chunker is modelled from the specification. -/

/-- Modelled from the spec: recursion kernel of the Chunker contract of
§4.2, whose implementation (LangChain's `RecursiveCharacterTextSplitter`)
is not part of this repository — src/ only constructs it with
`chunk_size = S` and `chunk_overlap = O`.  Empty input yields an empty
sequence; a text of at most `S` characters is a single chunk; otherwise
the first chunk is the first `S` characters and chunking continues
`S − O` characters further on.  The recursion is driven by a fuel
argument (each step consumes at least one character when `O < S`, so
any fuel of at least `t.length` yields the contract's chunking; the
fuel-exhausted and `S ≤ O` fallbacks are outside the spec's
`0 ≤ O < S` precondition and only keep the function total). -/
def chunkTextAux (S O : Nat) : Nat → List Char → List (List Char)
  | 0, t => if t.length = 0 then [] else [t]
  | fuel + 1, t =>
    if t.length = 0 then []
    else if t.length ≤ S ∨ S ≤ O then [t]
    else t.take S :: chunkTextAux S O fuel (t.drop (S - O))

/-- Modelled from the spec: the Chunker of §4.2 applied to a text, with
fuel `t.length` (enough for the whole text, see `chunkTextAux`). -/
def chunkText (S O : Nat) (t : List Char) : List (List Char) :=
  chunkTextAux S O t.length t

/-! ## Helper lemmas -/

/-- Left cancellation for string concatenation. -/
theorem string_append_left_cancel {s t u : String} (h : s ++ t = s ++ u) :
    t = u := by
  apply String.ext
  have hd := congrArg String.data h
  simp only [String.data_append] at hd
  exact List.append_cancel_left hd

/-- Any exception of the FAISS/embedding backend during a search is
caught by `similarity_search` and turned into the empty result list. -/
theorem similarity_search_backend_error (vs : Option FAISSStore)
    (ann : String → Nat → Except String (List (Document × ℝ)))
    (q : String) (k : Nat) (t : ℝ) (e : String)
    (h : ann q k = .error e) : similarity_search vs ann q k t = [] := by
  cases vs with
  | none => rfl
  | some store =>
    unfold similarity_search
    by_cases h0 : store.docstore.length = 0 <;> simp [h0, h]

/-- On an empty index (no store yet, or an empty docstore) the search
returns the empty list without consulting the backend. -/
theorem similarity_search_on_empty (vs : Option FAISSStore)
    (h : vs = none ∨ ∃ s, vs = some s ∧ s.docstore = [])
    (ann : String → Nat → Except String (List (Document × ℝ)))
    (q : String) (k : Nat) (t : ℝ) :
    similarity_search vs ann q k t = [] := by
  rcases h with rfl | ⟨s, rfl, hs⟩
  · rfl
  · simp [similarity_search, hs]

/-- With the zero threshold `RAGService` always passes, the filter of
`similarity_search` keeps every backend result (`exp` is positive). -/
theorem filterMap_zero_threshold (dws : List (Document × ℝ)) :
    dws.filterMap (fun p =>
      if (0 : ℝ) ≤ similarityScore p.2 then some (mkSearchResult p) else none)
      = dws.map mkSearchResult := by
  induction dws with
  | nil => rfl
  | cons p ps ih =>
    have hpos : (0 : ℝ) ≤ similarityScore p.2 := le_of_lt (Real.exp_pos _)
    simp [List.filterMap_cons, hpos, ih]

/-- Successful backend call, zero threshold: the search result is the
descending-similarity sort of the per-hit records. -/
theorem similarity_search_ok (store : FAISSStore)
    (ann : String → Nat → Except String (List (Document × ℝ)))
    (q : String) (k : Nat) (dws : List (Document × ℝ))
    (h0 : store.docstore.length ≠ 0) (h : ann q k = .ok dws) :
    similarity_search (some store) ann q k 0
      = (dws.map mkSearchResult).insertionSort simDescRel := by
  simp [similarity_search, h0, h, filterMap_zero_threshold]

/-- Congruence for ordered insertion: relations agreeing on the
elements involved insert identically. -/
theorem orderedInsert_congr {α : Type} (r s : α → α → Prop)
    [DecidableRel r] [DecidableRel s] (a : α) (l : List α)
    (h : ∀ b ∈ l, (r a b ↔ s a b)) :
    l.orderedInsert r a = l.orderedInsert s a := by
  induction l with
  | nil => rfl
  | cons b bs ih =>
    by_cases hr : r a b
    · rw [List.orderedInsert, List.orderedInsert, if_pos hr,
        if_pos ((h b (by simp)).1 hr)]
    · rw [List.orderedInsert, List.orderedInsert, if_neg hr,
        if_neg (fun hs' => hr ((h b (by simp)).2 hs')),
        ih (fun c hc => h c (by simp [hc]))]

/-- Congruence for insertion sort: relations agreeing on the list's
elements sort it identically. -/
theorem insertionSort_congr {α : Type} (r s : α → α → Prop)
    [DecidableRel r] [DecidableRel s] (l : List α)
    (h : ∀ a ∈ l, ∀ b ∈ l, (r a b ↔ s a b)) :
    l.insertionSort r = l.insertionSort s := by
  induction l with
  | nil => rfl
  | cons a as ih =>
    rw [List.insertionSort, List.insertionSort,
      ih (fun x hx y hy => h x (by simp [hx]) y (by simp [hy]))]
    apply orderedInsert_congr
    intro b hb
    have hb' : b ∈ as := (List.mem_insertionSort s).1 hb
    exact h a (by simp) b (by simp [hb'])

/-- On records whose similarity score is `exp(-distance)`, sorting by
descending similarity coincides with sorting by ascending distance. -/
theorem sort_simDesc_eq_sort_distAsc (l : List SearchResult)
    (h : ∀ x ∈ l, x.similarity_score = similarityScore x.distance) :
    l.insertionSort simDescRel = l.insertionSort distAscRel := by
  apply insertionSort_congr
  intro a ha b hb
  rw [simDescRel, distAscRel, h a ha, h b hb]
  unfold similarityScore
  rw [Real.exp_le_exp]
  constructor
  · intro hxy; linarith
  · intro hxy; linarith

/-! ## Concrete instances used by witnesses and counterexamples -/

def doc1 : Document := ⟨"The capital of France is Paris.", [("source", "text_input")]⟩

def store1 : FAISSStore := ⟨[doc1]⟩

/-- A FAISS backend whose embedding call fails (connection refused /
timeout). -/
def annFail : String → Nat → Except String (List (Document × ℝ)) :=
  fun _ _ => .error "connection refused"

/-- A FAISS backend returning a single hit at distance 2. -/
noncomputable def annOne : String → Nat → Except String (List (Document × ℝ)) :=
  fun _ _ => .ok [(doc1, 2)]

/-- An LLM endpoint that always answers "Paris". -/
def llmParis : String → Except String String := fun _ => .ok "Paris"

/-- An LLM endpoint whose call raises. -/
def llmFail : String → Except String String := fun _ => .error "timeout"

/-- A `json.loads` oracle (never consulted on the paths exercised). -/
def loads0 : String → Except String RagResponse := fun _ => .error "invalid json"

/-- A `json.dumps` oracle. -/
def dumps0 : RagResponse → String := fun r => r.answer

/-- A float formatting oracle. -/
def fmt0 : ℝ → String := fun _ => "2.000"

/-- A 51-character question. -/
def longB : String := "aaaaaaaaaaaaaaaaaaaaaaaaaaaaaaaaaaaaaaaaaaaaaaaaaab"

/-- Another 51-character question agreeing with `longB` on the first
50 characters and differing at position 51. -/
def longC : String := "aaaaaaaaaaaaaaaaaaaaaaaaaaaaaaaaaaaaaaaaaaaaaaaaaac"

/-! ## C1 — cache key normalization on the query path -/

/-- C1: the claim fails on the code.  `generate_rag_cache_key` alone is
case/whitespace-insensitive (first conjunct, matching the spec's
intent), but `RAGService.query` feeds it `f"rag:{question[:50]}"`
instead of the question, so on the actual query path (i) leading
whitespace of the question survives `strip()` behind the `"rag:"`
marker and the two spec example questions get different keys, and
(ii) two questions agreeing on their first 50 characters but with
different normalized text get the same key. -/
theorem claim_C1_effective_cache_key_not_normalized
    (sha256hex : String → String) (hinj : Function.Injective sha256hex) :
    generate_rag_cache_key sha256hex "What is X?"
      = generate_rag_cache_key sha256hex "  what is x?  " ∧
    ragQueryEffectiveKey sha256hex "What is X?"
      ≠ ragQueryEffectiveKey sha256hex "  what is x?  " ∧
    stripStr (lowerStr longB) ≠ stripStr (lowerStr longC) ∧
    ragQueryEffectiveKey sha256hex longB = ragQueryEffectiveKey sha256hex longC := by
  refine ⟨?_, ?_, ?_, ?_⟩
  · have h : stripStr (lowerStr "What is X?") = stripStr (lowerStr "  what is x?  ") := by
      decide
    simp only [generate_rag_cache_key, h]
  · intro heq
    have h1 := string_append_left_cancel
      (heq : "rag_query:" ++ _ = "rag_query:" ++ _)
    have h2 := hinj h1
    have h3 : stripStr (lowerStr (ragServiceCacheArg "What is X?"))
        ≠ stripStr (lowerStr (ragServiceCacheArg "  what is x?  ")) := by decide
    exact h3 h2
  · decide
  · have h : ragServiceCacheArg longB = ragServiceCacheArg longC := by decide
    simp only [ragQueryEffectiveKey, h]

/-- Witness for C1, with the hash oracle instantiated by the injective
identity function. -/
theorem claim_C1_witness :
    generate_rag_cache_key id "What is X?"
      = generate_rag_cache_key id "  what is x?  " ∧
    ragQueryEffectiveKey id "What is X?"
      ≠ ragQueryEffectiveKey id "  what is x?  " ∧
    stripStr (lowerStr longB) ≠ stripStr (lowerStr longC) ∧
    ragQueryEffectiveKey id longB = ragQueryEffectiveKey id longC :=
  claim_C1_effective_cache_key_not_normalized id (fun _ _ h => h)

/-! ## C4 — all-or-nothing persistence of `add_documents` -/

/-- C4: `add_documents` returns `True` only with the updated structure
persisted; an empty chunk list or an embedding failure yields `False`
with the state untouched, and on every failure the persisted index is
unchanged. -/
theorem claim_C4_add_documents_atomic_persist
    (st : VectorStoreState) (split_documents : List Document → List Document)
    (embedBatch : List Document → Except String Unit) (saveOk : Bool)
    (documents : List Document) :
    ((add_documents st split_documents embedBatch saveOk documents).1 = true →
      (add_documents st split_documents embedBatch saveOk documents).2 =
        ⟨some ⟨currentDocs st ++ split_documents documents⟩,
         some ⟨currentDocs st ++ split_documents documents⟩⟩) ∧
    ((add_documents st split_documents embedBatch saveOk documents).1 = false →
      (add_documents st split_documents embedBatch saveOk documents).2.persisted
        = st.persisted) ∧
    (split_documents documents = [] →
      add_documents st split_documents embedBatch saveOk documents = (false, st)) ∧
    (∀ e, embedBatch (split_documents documents) = .error e →
      add_documents st split_documents embedBatch saveOk documents = (false, st)) := by
  by_cases hlen : (split_documents documents).length = 0
  · refine ⟨?_, ?_, ?_, ?_⟩ <;> simp [add_documents, hlen]
  · cases hemb : embedBatch (split_documents documents) with
    | error e =>
      refine ⟨?_, ?_, ?_, ?_⟩ <;> simp [add_documents, hlen, hemb] <;>
        (intro h; exact absurd (by simp [h]) hlen)
    | ok u =>
      cases saveOk
      · refine ⟨?_, ?_, ?_, ?_⟩ <;> simp [add_documents, hlen, hemb] <;>
          (intro h; exact absurd (by simp [h]) hlen)
      · refine ⟨?_, ?_, ?_, ?_⟩ <;> simp [add_documents, hlen, hemb] <;>
          (intro h; exact absurd (by simp [h]) hlen)

/-- Witness for C4: a successful add persists the appended batch; a
failing embedding leaves everything unchanged. -/
theorem claim_C4_witness :
    (add_documents ⟨none, none⟩ id (fun _ => .ok ()) true [doc1]).2 =
      ⟨some ⟨[doc1]⟩, some ⟨[doc1]⟩⟩ ∧
    add_documents ⟨none, none⟩ id (fun _ => .error "embed down") true [doc1]
      = (false, ⟨none, none⟩) := by
  constructor
  · have h := (claim_C4_add_documents_atomic_persist ⟨none, none⟩ id
      (fun _ => .ok ()) true [doc1]).1 rfl
    simpa [currentDocs] using h
  · exact (claim_C4_add_documents_atomic_persist ⟨none, none⟩ id
      (fun _ => .error "embed down") true [doc1]).2.2.2 "embed down" rfl

/-! ## C8 — a cleared index searches as empty -/

/-- C8: after a successful `clear`, both the in-memory store and the
persisted copy are gone, and every subsequent `similarity_search`
returns the empty list (not an error), whatever the query, `k`,
threshold or backend. -/
theorem claim_C8_clear_then_empty_search
    (st : VectorStoreState) (rmtreeOk : Bool)
    (ann : String → Nat → Except String (List (Document × ℝ)))
    (q : String) (k : Nat) (score_threshold : ℝ)
    (hok : (VectorStore.clear st rmtreeOk).1 = true) :
    (VectorStore.clear st rmtreeOk).2.vectorstore = none ∧
    (VectorStore.clear st rmtreeOk).2.persisted = none ∧
    similarity_search (VectorStore.clear st rmtreeOk).2.vectorstore
      ann q k score_threshold = [] := by
  cases rmtreeOk
  · simp [VectorStore.clear] at hok
  · refine ⟨?_, ?_, ?_⟩ <;> simp [VectorStore.clear, similarity_search]

/-- Witness for C8 on a concrete non-empty state. -/
theorem claim_C8_witness :
    (VectorStore.clear ⟨some store1, some store1⟩ true).2.vectorstore = none ∧
    (VectorStore.clear ⟨some store1, some store1⟩ true).2.persisted = none ∧
    similarity_search (VectorStore.clear ⟨some store1, some store1⟩ true).2.vectorstore
      annOne "What is the capital of France?" 5 0 = [] :=
  claim_C8_clear_then_empty_search ⟨some store1, some store1⟩ true
    annOne "What is the capital of France?" 5 0 rfl

/-! ## C9 — unrecognized cache scope is a successful no-op -/

/-- C9: with the cache enabled, `clear_cache` with a scope other than
"all", "images" or "rag" issues no backend command, deletes nothing
and returns `True`. -/
theorem claim_C9_clear_cache_unknown_scope_noop
    (backendRaises : Bool) (r : Redis) (cache_type : String)
    (h1 : cache_type ≠ "all") (h2 : cache_type ≠ "images")
    (h3 : cache_type ≠ "rag") :
    clear_cache true backendRaises r cache_type = (true, r) := by
  simp [clear_cache, h1, h2, h3]

/-- Witness for C9 at the scope string "everything". -/
theorem claim_C9_witness :
    clear_cache true false ⟨[("image:k", "v"), ("rag_query:h", "w")]⟩ "everything"
      = (true, ⟨[("image:k", "v"), ("rag_query:h", "w")]⟩) :=
  claim_C9_clear_cache_unknown_scope_noop false
    ⟨[("image:k", "v"), ("rag_query:h", "w")]⟩ "everything"
    (by decide) (by decide) (by decide)

/-! ## C10 — cache operations are total under per-call backend failure -/

/-- C10: when the backend call raises at an individual `get`/`set`
(beyond the startup-disabled case), `get_cached_description` and
`get_cached_rag_response` report a miss, `set_cached_rag_response`
returns `False` and writes nothing; all three are total functions, so
no exception propagates. -/
theorem claim_C10_cache_ops_total_on_backend_failure
    (enabled : Bool) (sha256hex : String → String)
    (jsonLoads : String → Except String RagResponse)
    (jsonDumps : RagResponse → String) (r : Redis)
    (image_hash query : String) (response : RagResponse) :
    get_cached_description enabled true r image_hash = none ∧
    get_cached_rag_response enabled true sha256hex jsonLoads r query = none ∧
    (set_cached_rag_response enabled true sha256hex jsonDumps r query response).1
      = false ∧
    (set_cached_rag_response enabled true sha256hex jsonDumps r query response).2
      = r := by
  refine ⟨?_, ?_, ?_, ?_⟩ <;> cases enabled <;>
    simp [get_cached_description, get_cached_rag_response, set_cached_rag_response]

/-! ## C3 — transient backend failures during search -/

/-- C3 (counterexample to the claim as stated): the claim requires a
backend failure while embedding the query to surface as a failed
operation, distinguishable from a valid empty result.  On the code, a
search against a non-empty index with an unreachable embedding backend
returns the empty list — exactly the ordinary empty result that the
same backend state produces on an absent index. -/
theorem claim_C3_counterexample :
    similarity_search (some store1) annFail "What is the capital of France?" 5 0
      = [] ∧
    similarity_search none annFail "What is the capital of France?" 5 0 = [] := by
  constructor <;> rfl

/-- C3 (amended): every backend failure while embedding the query is
caught inside `similarity_search` and reported as the empty result
list — identical to a valid empty result — rather than being propagated
as a failed operation. -/
theorem claim_C3_search_failure_swallowed (vs : Option FAISSStore)
    (ann : String → Nat → Except String (List (Document × ℝ)))
    (q : String) (k : Nat) (t : ℝ) (e : String)
    (h : ann q k = .error e) :
    similarity_search vs ann q k t = [] ∧
    similarity_search vs ann q k t = similarity_search none ann q k t := by
  have h1 := similarity_search_backend_error vs ann q k t e h
  exact ⟨h1, by rw [h1]; rfl⟩

/-- Witness for the amended C3 on a concrete failing backend. -/
theorem claim_C3_witness :
    similarity_search (some store1) annFail "Where is Paris?" 3 0 = [] ∧
    similarity_search (some store1) annFail "Where is Paris?" 3 0
      = similarity_search none annFail "Where is Paris?" 3 0 :=
  claim_C3_search_failure_swallowed (some store1) annFail "Where is Paris?" 3 0
    "connection refused" rfl

/-! ## C5 — similarity scores and result order -/

/-- C5: every reported similarity score equals `exp(-distance)`, lies
in `(0, 1]` whenever the distance is nonnegative, and is strictly
decreasing in distance; the result list (sorted by similarity score
descending) is exactly the ascending-distance sort of the hits, it is
sorted closest-first, and it contains at most `k` entries whenever the
backend returned at most `k` hits. -/
theorem claim_C5_similarity_score_order
    (store : FAISSStore)
    (ann : String → Nat → Except String (List (Document × ℝ)))
    (q : String) (k : Nat) (dws : List (Document × ℝ))
    (h0 : store.docstore.length ≠ 0)
    (hann : ann q k = .ok dws)
    (hk : dws.length ≤ k)
    (hpos : ∀ p ∈ dws, 0 ≤ p.2) :
    (∀ r ∈ similarity_search (some store) ann q k 0,
      r.similarity_score = similarityScore r.distance ∧
      0 < r.similarity_score ∧ r.similarity_score ≤ 1) ∧
    similarity_search (some store) ann q k 0
      = (dws.map mkSearchResult).insertionSort distAscRel ∧
    List.Sorted distAscRel (similarity_search (some store) ann q k 0) ∧
    (similarity_search (some store) ann q k 0).length ≤ k ∧
    (∀ d₁ d₂ : ℝ, d₁ < d₂ → similarityScore d₂ < similarityScore d₁) := by
  have hmem_inv : ∀ x ∈ dws.map mkSearchResult,
      x.similarity_score = similarityScore x.distance := by
    intro x hx
    obtain ⟨p, _, rfl⟩ := List.mem_map.1 hx
    rfl
  have hout := similarity_search_ok store ann q k dws h0 hann
  have hdist := sort_simDesc_eq_sort_distAsc (dws.map mkSearchResult) hmem_inv
  refine ⟨?_, ?_, ?_, ?_, ?_⟩
  · intro r hr
    rw [hout] at hr
    have hr' := (List.mem_insertionSort simDescRel).1 hr
    obtain ⟨p, hp, rfl⟩ := List.mem_map.1 hr'
    refine ⟨rfl, Real.exp_pos _, ?_⟩
    have : (0 : ℝ) ≤ p.2 := hpos p hp
    rw [mkSearchResult]
    simp only [similarityScore]
    rw [Real.exp_le_one_iff]
    linarith
  · rw [hout, hdist]
  · rw [hout, hdist]
    exact List.sorted_insertionSort distAscRel (dws.map mkSearchResult)
  · rw [hout, List.length_insertionSort, List.length_map]
    exact hk
  · intro d₁ d₂ hlt
    simp only [similarityScore]
    rw [Real.exp_lt_exp]
    linarith

/-- Witness for C5 with a concrete two-hit backend. -/
noncomputable def annTwo : String → Nat → Except String (List (Document × ℝ)) :=
  fun _ _ => .ok [(doc1, 2), (doc1, 1)]

/-- Witness for C5 on the concrete backend `annTwo`. -/
theorem claim_C5_witness :
    (∀ r ∈ similarity_search (some store1) annTwo "q" 5 0,
      r.similarity_score = similarityScore r.distance ∧
      0 < r.similarity_score ∧ r.similarity_score ≤ 1) ∧
    similarity_search (some store1) annTwo "q" 5 0
      = ([(doc1, (2 : ℝ)), (doc1, 1)].map mkSearchResult).insertionSort distAscRel ∧
    List.Sorted distAscRel (similarity_search (some store1) annTwo "q" 5 0) ∧
    (similarity_search (some store1) annTwo "q" 5 0).length ≤ 5 ∧
    (∀ d₁ d₂ : ℝ, d₁ < d₂ → similarityScore d₂ < similarityScore d₁) :=
  claim_C5_similarity_score_order store1 annTwo "q" 5 [(doc1, 2), (doc1, 1)]
    (by decide) rfl (by norm_num)
    (by
      intro p hp
      rcases List.mem_cons.1 hp with h | h
      · rw [h]; norm_num
      · rcases List.mem_cons.1 h with h' | h'
        · rw [h']; norm_num
        · cases h')

/-! ## C2 — no cache write on empty-index queries -/

/-- C2: on a cache miss with an empty index, `query` returns the fixed
"not enough information" answer and performs no cache write (the Redis
state comes back unchanged); consequently re-asking the same question
against that same cache once documents are present runs a fresh index
search and returns the freshly generated answer instead of the earlier
one. -/
theorem claim_C2_no_cache_on_empty_index
    (sha256hex : String → String)
    (jsonLoads : String → Except String RagResponse)
    (jsonDumps : RagResponse → String)
    (fmtFloat : ℝ → String)
    (cache_enabled getRaises setRaises : Bool)
    (redis : Redis) (vs : Option FAISSStore)
    (ann : String → Nat → Except String (List (Document × ℝ)))
    (llm : String → Except String String)
    (question : String) (top_k : Option Nat) (include_sources : Bool)
    (hempty : vs = none ∨ ∃ s, vs = some s ∧ s.docstore = [])
    (hmiss : get_cached_rag_response cache_enabled getRaises sha256hex jsonLoads
      redis (ragServiceCacheArg question) = none) :
    RAGService.query sha256hex jsonLoads jsonDumps fmtFloat cache_enabled
        getRaises setRaises redis vs ann llm question top_k include_sources
      = (⟨noInfoAnswer, none, none, false⟩, redis) ∧
    (∀ (store' : FAISSStore)
        (ann' : String → Nat → Except String (List (Document × ℝ)))
        (llm' : String → Except String String)
        (ans : String) (dws : List (Document × ℝ)),
      store'.docstore ≠ [] →
      ann' question (top_k.getD RAG_TOP_K) = .ok dws →
      dws ≠ [] →
      (∀ p, llm' p = .ok ans) →
      (RAGService.query sha256hex jsonLoads jsonDumps fmtFloat cache_enabled
          getRaises setRaises redis (some store') ann' llm' question top_k
          include_sources).1.answer = ans ∧
      (RAGService.query sha256hex jsonLoads jsonDumps fmtFloat cache_enabled
          getRaises setRaises redis (some store') ann' llm' question top_k
          include_sources).1.num_sources = some dws.length ∧
      (RAGService.query sha256hex jsonLoads jsonDumps fmtFloat cache_enabled
          getRaises setRaises redis (some store') ann' llm' question top_k
          include_sources).1.error = false) := by
  constructor
  · simp [RAGService.query, hmiss, similarity_search_on_empty vs hempty]
  · intro store' ann' llm' ans dws hne hann hdws hllm
    have h0 : store'.docstore.length ≠ 0 := by
      simpa [List.length_eq_zero] using hne
    have hok := similarity_search_ok store' ann' question
      (top_k.getD RAG_TOP_K) dws h0 hann
    have hlen : (similarity_search (some store') ann' question
        (top_k.getD RAG_TOP_K) 0).length = dws.length := by
      rw [hok, List.length_insertionSort, List.length_map]
    have hlen0 : ¬ (similarity_search (some store') ann' question
        (top_k.getD RAG_TOP_K) 0).length = 0 := by
      rw [hlen]
      simpa [List.length_eq_zero] using hdws
    refine ⟨?_, ?_, ?_⟩ <;> simp [RAGService.query, hmiss, hlen0, hllm, hlen, hdws]

/-- Witness for C2: an empty-index query writes nothing, and the same
question afterwards against a one-document index returns the fresh
LLM answer with one source. -/
theorem claim_C2_witness :
    RAGService.query id loads0 dumps0 fmt0 true false false ⟨[]⟩ none annOne
        llmParis "What is the capital of France?" none false
      = (⟨noInfoAnswer, none, none, false⟩, ⟨[]⟩) ∧
    (RAGService.query id loads0 dumps0 fmt0 true false false ⟨[]⟩ (some store1)
        annOne llmParis "What is the capital of France?" none false).1.answer
      = "Paris" ∧
    (RAGService.query id loads0 dumps0 fmt0 true false false ⟨[]⟩ (some store1)
        annOne llmParis "What is the capital of France?" none false).1.num_sources
      = some 1 ∧
    (RAGService.query id loads0 dumps0 fmt0 true false false ⟨[]⟩ (some store1)
        annOne llmParis "What is the capital of France?" none false).1.error
      = false := by
  have h := claim_C2_no_cache_on_empty_index id loads0 dumps0 fmt0 true false
    false ⟨[]⟩ none annOne llmParis "What is the capital of France?" none false
    (Or.inl rfl) rfl
  refine ⟨h.1, ?_⟩
  have h2 := h.2 store1 annOne llmParis "Paris" [(doc1, 2)]
    (by simp [store1]) rfl (by simp) (fun _ => rfl)
  exact h2

/-! ## C6 — exception conversion inside `query` -/

/-- C6 (counterexample to the claim as stated): the claim requires an
exception raised during the index search to surface from `query` as a
structured `{answer, error: true}` object.  On the code, with a
non-empty index and a failing search backend, `query` returns the
"not enough information" answer with no error flag: the search
exception was swallowed into an empty result list one layer below. -/
theorem claim_C6_counterexample :
    (RAGService.query id loads0 dumps0 fmt0 true false false ⟨[]⟩ (some store1)
      annFail llmParis "Is the backend reachable?" none false).1.error = false ∧
    (RAGService.query id loads0 dumps0 fmt0 true false false ⟨[]⟩ (some store1)
      annFail llmParis "Is the backend reachable?" none false).1.answer
      = noInfoAnswer := by
  constructor <;> rfl

/-- C6 (amended): on a cache miss, an exception raised by the
language-model call is caught inside `query` and converted into the
structured error object with the human-readable failure message and
`error = true` (cache untouched); an exception raised during the index
search, however, never reaches `query`'s handler — it yields the
"not enough information" answer with no error flag.  In both cases
`query` returns a well-formed response object and no exception
propagates (the model is a total function). -/
theorem claim_C6_error_semantics
    (sha256hex : String → String)
    (jsonLoads : String → Except String RagResponse)
    (jsonDumps : RagResponse → String)
    (fmtFloat : ℝ → String)
    (cache_enabled getRaises setRaises : Bool)
    (redis : Redis) (vs : Option FAISSStore)
    (ann : String → Nat → Except String (List (Document × ℝ)))
    (llm : String → Except String String)
    (question : String) (top_k : Option Nat) (include_sources : Bool)
    (hmiss : get_cached_rag_response cache_enabled getRaises sha256hex jsonLoads
      redis (ragServiceCacheArg question) = none) :
    (∀ e, (∀ p, llm p = .error e) →
      similarity_search vs ann question (top_k.getD RAG_TOP_K) 0 ≠ [] →
      RAGService.query sha256hex jsonLoads jsonDumps fmtFloat cache_enabled
          getRaises setRaises redis vs ann llm question top_k include_sources
        = (⟨errorAnswerHead ++ e, none, none, true⟩, redis)) ∧
    (∀ e, ann question (top_k.getD RAG_TOP_K) = .error e →
      RAGService.query sha256hex jsonLoads jsonDumps fmtFloat cache_enabled
          getRaises setRaises redis vs ann llm question top_k include_sources
        = (⟨noInfoAnswer, none, none, false⟩, redis)) := by
  constructor
  · intro e hllm hne
    have hlen0 : ¬ (similarity_search vs ann question
        (top_k.getD RAG_TOP_K) 0).length = 0 := by
      simpa [List.length_eq_zero] using hne
    simp [RAGService.query, hmiss, hlen0, hllm]
  · intro e hann
    have hse := similarity_search_backend_error vs ann question
      (top_k.getD RAG_TOP_K) 0 e hann
    simp [RAGService.query, hmiss, hse]

/-- Witness for the amended C6: a failing LLM call yields the
structured error answer; a failing search backend yields the
no-information answer without the error flag. -/
theorem claim_C6_witness :
    RAGService.query id loads0 dumps0 fmt0 true false false ⟨[]⟩ (some store1)
        annOne llmFail "Why is the sky blue?" none false
      = (⟨errorAnswerHead ++ "timeout", none, none, true⟩, ⟨[]⟩) ∧
    RAGService.query id loads0 dumps0 fmt0 true false false ⟨[]⟩ (some store1)
        annFail llmFail "Why is the sky blue?" none false
      = (⟨noInfoAnswer, none, none, false⟩, ⟨[]⟩) := by
  have h := claim_C6_error_semantics id loads0 dumps0 fmt0 true false false
    ⟨[]⟩ (some store1) annOne llmFail "Why is the sky blue?" none false rfl
  have h' := claim_C6_error_semantics id loads0 dumps0 fmt0 true false false
    ⟨[]⟩ (some store1) annFail llmFail "Why is the sky blue?" none false rfl
  constructor
  · apply h.1 "timeout" (fun _ => rfl)
    rw [similarity_search_ok store1 annOne "Why is the sky blue?" _
      [(doc1, 2)] (by decide) rfl]
    simp [List.insertionSort, List.orderedInsert]
  · exact h'.2 "connection refused" rfl

/-! ## C7 — chunk overlap invariant -/

/-- Characterization of chunk `i` of the spec-modelled chunker: with
enough fuel and `O < S`, chunk `i` is the (at most) `S`-character
window starting `i * (S − O)` characters into the text, and every
chunk that has a successor covers more than `S` remaining
characters. -/
theorem chunkTextAux_getElem (S O : Nat) (hO : O < S) :
    ∀ (i fuel : Nat) (t : List Char) (c : List Char),
      t.length ≤ fuel →
      (chunkTextAux S O fuel t)[i]? = some c →
      c = (t.drop (i * (S - O))).take S ∧
      (i + 1 < (chunkTextAux S O fuel t).length →
        S < (t.drop (i * (S - O))).length) := by
  intro i
  induction i with
  | zero =>
    intro fuel t c hf hc
    cases fuel with
    | zero =>
      have ht : t.length = 0 := Nat.le_zero.1 hf
      simp [chunkTextAux, ht] at hc
    | succ fuel =>
      by_cases h0 : t.length = 0
      · simp [chunkTextAux, h0] at hc
      · by_cases h1 : t.length ≤ S ∨ S ≤ O
        · have hrw : chunkTextAux S O (fuel + 1) t = [t] := by
            simp [chunkTextAux, h0, h1]
          rw [hrw] at hc ⊢
          simp at hc
          subst hc
          refine ⟨?_, ?_⟩
          · rcases h1 with h1 | h1
            · simp [List.take_of_length_le h1]
            · exact absurd h1 (by omega)
          · intro hlt
            simp at hlt
        · have hrw : chunkTextAux S O (fuel + 1) t
              = t.take S :: chunkTextAux S O fuel (t.drop (S - O)) := by
            simp [chunkTextAux, h0, h1]
          rw [hrw] at hc ⊢
          simp at hc
          subst hc
          push_neg at h1
          refine ⟨by simp, ?_⟩
          · intro _
            simp
            omega
  | succ i ih =>
    intro fuel t c hf hc
    cases fuel with
    | zero =>
      have ht : t.length = 0 := Nat.le_zero.1 hf
      simp [chunkTextAux, ht] at hc
    | succ fuel =>
      by_cases h0 : t.length = 0
      · simp [chunkTextAux, h0] at hc
      · by_cases h1 : t.length ≤ S ∨ S ≤ O
        · simp [chunkTextAux, h0, h1] at hc
        · have hrw : chunkTextAux S O (fuel + 1) t
              = t.take S :: chunkTextAux S O fuel (t.drop (S - O)) := by
            simp [chunkTextAux, h0, h1]
          rw [hrw] at hc ⊢
          rw [List.getElem?_cons_succ] at hc
          push_neg at h1
          have hf' : (t.drop (S - O)).length ≤ fuel := by
            simp only [List.length_drop]
            omega
          obtain ⟨hceq, hlen⟩ := ih fuel (t.drop (S - O)) c hf' hc
          have harith : S - O + i * (S - O) = (i + 1) * (S - O) := by ring
          refine ⟨?_, ?_⟩
          · rw [hceq, List.drop_drop, harith]
          · intro hlt
            rw [List.length_cons] at hlt
            have hres := hlen (by omega)
            rw [List.drop_drop, harith] at hres
            exact hres

/-- C7 (on the spec-modelled chunker): for `0 ≤ O < S`, adjacent chunks
`i`, `i+1` are the `S`-wide windows starting `i(S−O)` and `(i+1)(S−O)`
characters into the text — so chunk `i+1` begins `S−O` characters after
chunk `i` begins — chunk `i` is exactly `S` characters long, chunk
`i+1` is at most `S` characters long, and the length-`O` suffix of
chunk `i` equals the length-`O` prefix of chunk `i+1`. -/
theorem claim_C7_chunk_overlap_invariant
    (S O : Nat) (hO : O < S) (t : List Char) (i : Nat) (ci cj : List Char)
    (hci : (chunkText S O t)[i]? = some ci)
    (hcj : (chunkText S O t)[i + 1]? = some cj) :
    ci = (t.drop (i * (S - O))).take S ∧
    cj = (t.drop ((i + 1) * (S - O))).take S ∧
    ci.length = S ∧ cj.length ≤ S ∧
    ci.drop (S - O) = cj.take O := by
  have hlen1 : i + 1 < (chunkText S O t).length :=
    (List.getElem?_eq_some.1 hcj).1
  obtain ⟨hci_eq, hfull⟩ :=
    chunkTextAux_getElem S O hO i t.length t ci (le_refl _) hci
  obtain ⟨hcj_eq, _⟩ :=
    chunkTextAux_getElem S O hO (i + 1) t.length t cj (le_refl _) hcj
  have hSlt : S < (t.drop (i * (S - O))).length := hfull hlen1
  refine ⟨hci_eq, hcj_eq, ?_, ?_, ?_⟩
  · rw [hci_eq, List.length_take]
    omega
  · rw [hcj_eq, List.length_take]
    omega
  · rw [hci_eq, hcj_eq, List.drop_take, List.drop_drop, List.take_take]
    have h1 : S - (S - O) = O := by omega
    have h2 : i * (S - O) + (S - O) = (i + 1) * (S - O) := by ring
    have h3 : min O S = O := Nat.min_eq_left (le_of_lt hO)
    rw [h1, h2, h3]

/-- Witness for C7 with `S = 5`, `O = 2` on a ten-character text, whose
chunks are "abcde", "defgh", "ghij". -/
theorem claim_C7_witness :
    "abcde".data = (("abcdefghij".data).drop (0 * (5 - 2))).take 5 ∧
    "defgh".data = (("abcdefghij".data).drop ((0 + 1) * (5 - 2))).take 5 ∧
    ("abcde".data).length = 5 ∧ ("defgh".data).length ≤ 5 ∧
    ("abcde".data).drop (5 - 2) = ("defgh".data).take 2 :=
  claim_C7_chunk_overlap_invariant 5 2 (by decide) "abcdefghij".data 0
    "abcde".data "defgh".data (by decide) (by decide)

end AVIVO
